import Mathlib

/-!
# Verification of the bundeck plugin execution subsystem

Shallow embedding of the plugin Process Runner (Go, `plugin.Runner.Run`)
and of the client-side Continuous Execution Controller
(`web/src/components/plugins/plugin-card.tsx`), together with proofs of
the specified properties.
-/

set_option autoImplicit false

namespace Bundeck

/-! ## Process Runner

The Go code under verification:

```
func (r *Runner) Run(id int, code string) (string, error) {
    tempFile := filepath.Join(r.tempDir, fmt.Sprintf("%d.ts", id))
    if err := os.WriteFile(tempFile, []byte(code), 0644); err != nil {
        return "", fmt.Errorf("failed to write temp file: %w", err)
    }
    defer os.Remove(tempFile)
    cmd := exec.Command("bun", "run", tempFile)
    output, err := cmd.CombinedOutput()
    if err != nil {
        return "", fmt.Errorf("failed to run plugin: %w\nOutput: %s", err, string(output))
    }
    return string(output), nil
}
```

The operating-system effects (`os.WriteFile`, process spawn and wait,
`os.Remove`) are modelled by an environment value fixed per invocation:
the write either succeeds or fails with a message, and the spawned
process either fails to start (`exec.Cmd.Start` error, empty captured
output) or runs to completion with a captured combined stdout+stderr
string, in the emission order of the child, and an optional process
error (`nil` for exit code zero, a description such as `exit status 1`
otherwise).  `os.WriteFile` opens with `O_CREATE|O_TRUNC` and then
writes, so a failing write either happened before the file was created
(open refused, e.g. permission denied) or after creation/truncation with
a prefix of the content written (e.g. disk full); the failure outcome
records which, and what is left on disk.  The run is recorded as a
trace of effects in program order, from which file existence after
return and the spawned commands are computed.  The model describes terminating invocations (the Go wait
is unbounded; for a hung child `Run` never returns, so nothing is
claimed about disk state "after return" there).
-/

/-- Outcome of `os.WriteFile` for the temporary script file.  On
failure, `leftover = none` means the open itself failed and no file was
created; `leftover = some s` means the file was created (or truncated)
and `s` was written before the error hit, so the file is on disk with
content `s`. -/
inductive WriteOutcome where
  | ok
  | fail (msg : String) (leftover : Option String)
deriving DecidableEq, Repr

/-- Outcome of `exec.Cmd.CombinedOutput` for the spawned interpreter:
either the process could not be started (captured output is empty), or
it ran and exited, with its captured combined stdout+stderr stream in
emission order and `exitErr = none` exactly when the exit code was zero. -/
inductive ProcOutcome where
  | startFail (msg : String)
  | exited (output : String) (exitErr : Option String)
deriving DecidableEq, Repr

/-- The environment of one `Run` invocation: what the OS does at each
effectful step. -/
structure RunEnv where
  write : WriteOutcome
  proc : ProcOutcome
deriving DecidableEq, Repr

/-- The captured combined output that `CombinedOutput` returns alongside
its error: empty when the process never started. -/
def ProcOutcome.capturedOutput : ProcOutcome → String
  | .startFail _ => ""
  | .exited output _ => output

/-- The error that `CombinedOutput` returns: the start error, or the
wait error (`none` for exit code zero). -/
def ProcOutcome.procErr : ProcOutcome → Option String
  | .startFail msg => some msg
  | .exited _ exitErr => exitErr

/-- The `plugin.Runner` structure: holds the scratch directory path
computed once by `NewRunner`. -/
structure Runner where
  tempDir : String
deriving DecidableEq, Repr

/-- Model of `NewRunner`: the scratch directory is
`filepath.Join(os.TempDir(), "bundeck-plugins")`, created idempotently. -/
def newRunner (osTempDir : String) : Runner :=
  { tempDir := osTempDir ++ "/" ++ "bundeck-plugins" }

/-- The temporary script file path
`filepath.Join(r.tempDir, fmt.Sprintf("%d.ts", id))`. -/
def Runner.tempFilePath (r : Runner) (id : Int) : String :=
  r.tempDir ++ "/" ++ toString id ++ ".ts"

/-- One operating-system effect performed by `Run`, in program order. -/
inductive Effect where
  | writeFile (path content : String)
  | spawn (cmdName : String) (args : List String)
  | removeFile (path : String)
deriving DecidableEq, Repr

/-- Everything observable about one `Run` invocation: the returned
`(string, error)` pair and the ordered trace of OS effects. -/
structure RunResult where
  out : String
  err : Option String
  trace : List Effect
deriving DecidableEq, Repr

/-- Model of `Runner.Run`, step for step from the Go source.  On write
failure it returns before the `defer os.Remove` is registered and before
any command is built — so whatever the failed write left on disk stays
there; otherwise it spawns `bun run <tempFile>` and the deferred remove
deletes the file on every return path after the write. -/
def Runner.run (r : Runner) (id : Int) (code : String) (env : RunEnv) :
    RunResult :=
  let tempFile := r.tempFilePath id
  match env.write with
  | .fail msg leftover =>
      { out := ""
        err := some ("failed to write temp file: " ++ msg)
        trace :=
          match leftover with
          | some s => [Effect.writeFile tempFile s]
          | none => [] }
  | .ok =>
      match env.proc.procErr with
      | some perr =>
          { out := ""
            err := some ("failed to run plugin: " ++ perr ++ "\nOutput: "
              ++ env.proc.capturedOutput)
            trace := [Effect.writeFile tempFile code,
              Effect.spawn "bun" ["run", tempFile],
              Effect.removeFile tempFile] }
      | none =>
          { out := env.proc.capturedOutput
            err := none
            trace := [Effect.writeFile tempFile code,
              Effect.spawn "bun" ["run", tempFile],
              Effect.removeFile tempFile] }

/-- The commands spawned in a trace, with their argument lists, in
order. -/
def spawnsOf : List Effect → List (String × List String)
  | [] => []
  | Effect.spawn n a :: es => (n, a) :: spawnsOf es
  | Effect.writeFile _ _ :: es => spawnsOf es
  | Effect.removeFile _ :: es => spawnsOf es

/-- Whether a file at `path` exists after replaying a trace of effects
over an initial existence state. -/
def fileExistsAfter (path : String) (tr : List Effect) (init : Bool) :
    Bool :=
  tr.foldl
    (fun ex e =>
      match e with
      | Effect.writeFile p _ => if p = path then true else ex
      | Effect.spawn _ _ => ex
      | Effect.removeFile p => if p = path then false else ex)
    init

/-! ## Continuous Execution Controller

The client code under verification (`plugin-card.tsx`):

```
const startContinuousRun = useCallback(() => {
    if (isRunning || !plugin.run_continuously || plugin.interval_seconds <= 0) {
        return;
    }
    stopContinuousRun();
    runPlugin(plugin);
    setIsRunning(true);
    try {
        intervalRef.current = setInterval(() => {
            runPlugin(plugin);
        }, plugin.interval_seconds * 1000);
    } catch (err) { ... }
}, [plugin, runPlugin, isRunning, toast]);

const stopContinuousRun = useCallback(() => {
    try {
        if (intervalRef.current) {
            window.clearInterval(intervalRef.current);
            intervalRef.current = null;
        }
    } catch (err) {}
    setIsRunning(false);
}, []);

useEffect(() => {
    return () => {
        if (intervalRef.current) {
            window.clearInterval(intervalRef.current);
            intervalRef.current = null;
        }
    };
}, []);

useEffect(() => {
    if (isEditMode && isRunning) {
        stopContinuousRun();
    }
}, [isEditMode, isRunning, stopContinuousRun]);
```

The embedding is a state machine per plugin card.  The browser's timer
table is modelled explicitly as the list of armed interval timers
(fresh numeric id, period in milliseconds as passed to `setInterval`),
so that "exactly one timer armed" is a fact about the browser state and
not merely about the single-slot `intervalRef`.  Each dispatch of
`runPlugin` (the immediate run, a timer firing, a single-shot click) is
counted in `invocations`.  `setInterval` is modelled as total (the
source wraps it in a `try` whose catch only shows a toast). -/

/-- The fields of the persisted `Plugin` record that the controller
reads (`id` only routes the HTTP request; `name`, `code`, image and
ordering fields are not read by the run logic). -/
structure Plugin where
  id : Int
  run_continuously : Bool
  interval_seconds : Int
deriving DecidableEq, Repr

/-- State of one plugin card: the `isRunning` React state, the
`intervalRef.current` ref, the browser's armed interval timers
(id, period in ms), a fresh-id counter, and the number of `runPlugin`
dispatches issued so far. -/
structure CtrlWorld where
  isRunning : Bool
  intervalRef : Option Nat
  timers : List (Nat × Int)
  nextTimerId : Nat
  invocations : Nat
deriving DecidableEq, Repr

/-- Model of `stopContinuousRun`: clear the ref-held interval (if any)
from the browser's timer table, null the ref, set `isRunning` false. -/
def stopContinuousRun (w : CtrlWorld) : CtrlWorld :=
  let w1 :=
    match w.intervalRef with
    | some tid =>
        { w with intervalRef := none
                 timers := w.timers.filter (fun t => t.1 != tid) }
    | none => w
  { w1 with isRunning := false }

/-- Model of `startContinuousRun`: guard (already running, flag unset,
or non-positive interval), then stop any existing interval, dispatch one
immediate `runPlugin`, set `isRunning`, and arm a repeating timer with
period `interval_seconds * 1000` milliseconds. -/
def startContinuousRun (p : Plugin) (w : CtrlWorld) : CtrlWorld :=
  if w.isRunning = true ∨ p.run_continuously = false ∨
      p.interval_seconds ≤ 0 then
    w
  else
    let w1 := stopContinuousRun w
    let w2 := { w1 with invocations := w1.invocations + 1
                        isRunning := true }
    { w2 with intervalRef := some w2.nextTimerId
              timers := w2.timers ++
                [(w2.nextTimerId, p.interval_seconds * 1000)]
              nextTimerId := w2.nextTimerId + 1 }

/-- The browser fires armed interval timer `tid`: its callback
dispatches one `runPlugin`.  A cancelled (absent) timer never fires. -/
def timerFire (tid : Nat) (w : CtrlWorld) : CtrlWorld :=
  if w.timers.any (fun t => t.1 == tid) then
    { w with invocations := w.invocations + 1 }
  else w

/-- Model of the mutation's `onError` handler body: stop the continuous
run if the card is Running.  React-query invokes this handler only when
the `mutationFn` promise rejects; the `mutationFn` here is a bare
`fetch`, whose promise rejects only on network-level failure — an HTTP
error status (such as the 500 the server sends for a Runner error)
resolves the promise and is routed to `onSuccess` instead, never
reaching this handler (see `mutationSettle`). -/
def onRunError (w : CtrlWorld) : CtrlWorld :=
  if w.isRunning then stopContinuousRun w else w

/-- Model of the unmount cleanup effect: clear the ref-held interval
(React state itself is discarded with the component, so `isRunning` is
not written). -/
def unmountCleanup (w : CtrlWorld) : CtrlWorld :=
  match w.intervalRef with
  | some tid =>
      { w with intervalRef := none
               timers := w.timers.filter (fun t => t.1 != tid) }
  | none => w

/-- Model of the edit-mode effect: entering edit mode while running
stops the continuous run. -/
def editModeEffect (isEditMode : Bool) (w : CtrlWorld) : CtrlWorld :=
  if isEditMode && w.isRunning then stopContinuousRun w else w

/-- Model of `handleCardClick` outside edit mode: toggle continuous mode
for a continuous plugin, otherwise dispatch one single-shot run. -/
def handleCardClick (isEditMode : Bool) (p : Plugin) (w : CtrlWorld) :
    CtrlWorld :=
  if isEditMode then w
  else if p.run_continuously then
    if w.isRunning then stopContinuousRun w else startContinuousRun p w
  else { w with invocations := w.invocations + 1 }

/-- Consistency of a card state: every armed timer in the browser table
is the one held by `intervalRef` (no timer outlives the ref that can
cancel it).  Holds in every reachable state. -/
def refConsistent (w : CtrlWorld) : Bool :=
  match w.intervalRef with
  | none => w.timers.isEmpty
  | some tid => w.timers.all (fun t => t.1 == tid)

/-! ## The tick pipeline: server endpoint, fetch, mutation settling

How a tick's Runner outcome travels back to the controller.  The server
handler (`handlers.go`, `RunPlugin`):

```
result, err := h.runner.Run(id, plugin.Code)
if err != nil {
    return c.Status(http.StatusInternalServerError).JSON(fiber.Map{
        "error": err.Error(),
    })
}
return c.SendString(result)
```

The client dispatches it with a bare `fetch` and lets react-query settle
the mutation:

```
mutationFn: (plugin: Plugin) => {
    return fetch(`/api/plugins/${plugin.id}/run`, {
        method: "POST",
        headers: { "Content-Type": "application/json" },
    });
},
onSuccess: async (data: Response) => {
    const text = await data.text();
    setResult(text);
},
```

A `fetch` promise resolves for every completed HTTP exchange, whatever
the status code, and rejects only on network-level failure. -/

/-- An HTTP response of the run endpoint. -/
structure HttpResponse where
  status : Nat
  body : String
deriving DecidableEq, Repr

/-- Model of the `RunPlugin` handler's mapping of the Runner result to
the HTTP response: a Runner error becomes status 500 with a JSON error
body; success becomes status 200 with the raw output text. -/
def runPluginEndpoint (res : RunResult) : HttpResponse :=
  match res.err with
  | some e => { status := 500, body := "\x7b\"error\":\"" ++ e ++ "\"\x7d" }
  | none => { status := 200, body := res.out }

/-- How the `mutationFn` promise settles for a completed HTTP exchange
versus a network failure. -/
inductive FetchResult where
  | resolved (resp : HttpResponse)
  | rejected (msg : String)
deriving DecidableEq, Repr

/-- The bare `fetch` of `mutationFn` resolves with the response for
every completed exchange — it has no `response.ok` check and never
throws on an HTTP error status. -/
def fetchRun (resp : HttpResponse) : FetchResult :=
  FetchResult.resolved resp

/-- React-query settling the mutation: a resolved promise runs
`onSuccess`, which only stores the response text for display
(`setResult`) — `isRunning`, `intervalRef` and the timer table are
untouched; a rejected promise runs `onError` (`onRunError`). -/
def mutationSettle (f : FetchResult) (w : CtrlWorld) : CtrlWorld :=
  match f with
  | .resolved _ => w
  | .rejected _ => onRunError w

/-- One continuous-mode tick settling end to end: the Runner result is
mapped to an HTTP response by the handler, the completed exchange
resolves the fetch, and react-query settles the mutation against the
card state. -/
def tickSettle (res : RunResult) (w : CtrlWorld) : CtrlWorld :=
  mutationSettle (fetchRun (runPluginEndpoint res)) w

/-! ## Supporting lemmas -/

/-- Filtering away a value that every element carries empties the list. -/
theorem filter_bne_nil_of_all_eq (tid : Nat) (l : List (Nat × Int))
    (h : l.all (fun t => t.1 == tid) = true) :
    l.filter (fun t => t.1 != tid) = [] := by
  induction l with
  | nil => rfl
  | cons a l ih =>
      rw [List.all_cons, Bool.and_eq_true] at h
      have ha : a.1 = tid := by simpa using h.1
      simp [List.filter_cons, ha, ih h.2]

/-- Explicit form of a successful activation from an idle, timer-free
card state. -/
theorem startContinuousRun_eq_of_idle (p : Plugin) (w : CtrlWorld)
    (hIdle : w.isRunning = false) (hRef : w.intervalRef = none)
    (hc : p.run_continuously = true) (hi : 0 < p.interval_seconds) :
    startContinuousRun p w =
      { isRunning := true
        intervalRef := some w.nextTimerId
        timers := w.timers ++ [(w.nextTimerId, p.interval_seconds * 1000)]
        nextTimerId := w.nextTimerId + 1
        invocations := w.invocations + 1 } := by
  obtain ⟨ir, ref, tm, nid, inv⟩ := w
  cases hIdle
  cases hRef
  unfold startContinuousRun stopContinuousRun
  rw [if_neg (by simp [hc]; omega)]

/-- Activation is refused while already running. -/
theorem startContinuousRun_of_running (p : Plugin) (w : CtrlWorld)
    (hRun : w.isRunning = true) : startContinuousRun p w = w := by
  unfold startContinuousRun
  rw [if_pos]
  exact Or.inl hRun

/-! ## Claims -/

/-- Claim C1 counterexample: the claim fails as stated.  When
`os.WriteFile` creates (or truncates) the temp file and then fails —
here a disk-full error after writing the first two bytes — `Run`
returns before the `defer os.Remove` is registered, so the temporary
script file is still on disk after `Run` returns. -/
theorem write_failure_can_leave_temp_file :
    fileExistsAfter (Runner.tempFilePath ⟨"/tmp/bundeck-plugins"⟩ 7)
      (Runner.run ⟨"/tmp/bundeck-plugins"⟩ 7 "console.log(1)"
        ⟨WriteOutcome.fail "disk full" (some "co"),
          ProcOutcome.exited "" none⟩).trace false
      = true := by
  rfl

/-- Claim C1 (amended): for every invocation of `Run` in which the
temporary script file write succeeds, the file does not exist on disk
after `Run` returns, whatever the spawned process does: replaying the
invocation's effect trace from an absent file leaves it absent, because
the deferred remove covers every return path after the write.  (On a
failed write, `Run` returns before the remove is registered, and a file
created by the failed write remains — see
`write_failure_can_leave_temp_file`.) -/
theorem run_leaves_no_temp_file (r : Runner) (id : Int) (code : String)
    (env : RunEnv) (hw : env.write = WriteOutcome.ok) :
    fileExistsAfter (r.tempFilePath id) (r.run id code env).trace false
      = false := by
  obtain ⟨wr, pr⟩ := env
  cases hw
  cases pr with
  | startFail msg =>
      simp [Runner.run, ProcOutcome.procErr, fileExistsAfter]
  | exited output exitErr =>
      cases exitErr <;>
        simp [Runner.run, ProcOutcome.procErr, fileExistsAfter]

theorem run_leaves_no_temp_file_witness :
    fileExistsAfter (Runner.tempFilePath ⟨"/tmp/bundeck-plugins"⟩ 1)
      (Runner.run ⟨"/tmp/bundeck-plugins"⟩ 1 "console.log(1)"
        ⟨WriteOutcome.ok,
          ProcOutcome.exited "ok\n" (some "exit status 1")⟩).trace false
      = false :=
  run_leaves_no_temp_file ⟨"/tmp/bundeck-plugins"⟩ 1 "console.log(1)"
    _ rfl

/-- Claim C2: when the spawned interpreter exits with code zero, `Run`
returns exactly the captured combined output (the stream in the order
the child emitted it), with no trimming, and no error. -/
theorem run_exit_zero_returns_output (r : Runner) (id : Int)
    (code output : String) (env : RunEnv)
    (hw : env.write = WriteOutcome.ok)
    (hp : env.proc = ProcOutcome.exited output none) :
    (r.run id code env).out = output ∧ (r.run id code env).err = none := by
  obtain ⟨wr, pr⟩ := env
  cases hw
  cases hp
  exact ⟨rfl, rfl⟩

theorem run_exit_zero_returns_output_witness :
    (Runner.run ⟨"/tmp/bundeck-plugins"⟩ 42 "console.log(1)"
        ⟨WriteOutcome.ok, ProcOutcome.exited " A\nB \n" none⟩).out
      = " A\nB \n" ∧
    (Runner.run ⟨"/tmp/bundeck-plugins"⟩ 42 "console.log(1)"
        ⟨WriteOutcome.ok, ProcOutcome.exited " A\nB \n" none⟩).err
      = none :=
  run_exit_zero_returns_output ⟨"/tmp/bundeck-plugins"⟩ 42
    "console.log(1)" " A\nB \n" _ rfl rfl

/-- Claim C3: on non-zero exit or failure to spawn, `Run` fails, and the
error message is literally the prefix `failed to run plugin: `, then the
underlying process error description, then `\nOutput: `, then the
captured combined output of the failed process (empty when the process
never started) — so the message contains both. -/
theorem run_failure_embeds_diagnostics (r : Runner) (id : Int)
    (code perr : String) (env : RunEnv)
    (hw : env.write = WriteOutcome.ok)
    (hp : env.proc.procErr = some perr) :
    (r.run id code env).err
      = some ("failed to run plugin: " ++ perr ++ "\nOutput: "
          ++ env.proc.capturedOutput) := by
  obtain ⟨wr, pr⟩ := env
  cases hw
  simp only [Runner.run] at *
  rw [hp]

theorem run_failure_embeds_diagnostics_witness :
    (Runner.run ⟨"/tmp/bundeck-plugins"⟩ 7 "throw 1"
        ⟨WriteOutcome.ok,
          ProcOutcome.exited "stack trace\n" (some "exit status 1")⟩).err
      = some ("failed to run plugin: " ++ "exit status 1"
          ++ "\nOutput: " ++ "stack trace\n") :=
  run_failure_embeds_diagnostics ⟨"/tmp/bundeck-plugins"⟩ 7 "throw 1"
    "exit status 1" _ rfl rfl

/-- Claim C7: whenever the temp file write succeeds, the invocation
spawns exactly one external command, the `bun` interpreter, and the
temporary script file's path is its sole execution argument (the only
argument after the `run` subcommand). -/
theorem run_spawns_interpreter_on_temp_path (r : Runner) (id : Int)
    (code : String) (env : RunEnv)
    (hw : env.write = WriteOutcome.ok) :
    spawnsOf (r.run id code env).trace
      = [("bun", ["run", r.tempFilePath id])] := by
  obtain ⟨wr, pr⟩ := env
  cases hw
  cases pr with
  | startFail msg => rfl
  | exited output exitErr => cases exitErr <;> rfl

theorem run_spawns_interpreter_on_temp_path_witness :
    spawnsOf (Runner.run ⟨"/tmp/bundeck-plugins"⟩ 42 "console.log(1)"
        ⟨WriteOutcome.ok, ProcOutcome.exited "ok\n" none⟩).trace
      = [("bun", ["run", "/tmp/bundeck-plugins/42.ts"])] :=
  run_spawns_interpreter_on_temp_path ⟨"/tmp/bundeck-plugins"⟩ 42
    "console.log(1)" _ rfl

/-- Claim C8: when the temporary script file cannot be written, `Run`
returns an error and its effect trace contains no spawn: no interpreter
process is started for that invocation. -/
theorem run_write_failure_spawns_nothing (r : Runner) (id : Int)
    (code msg : String) (leftover : Option String) (env : RunEnv)
    (hw : env.write = WriteOutcome.fail msg leftover) :
    (r.run id code env).err
        = some ("failed to write temp file: " ++ msg) ∧
      spawnsOf (r.run id code env).trace = [] := by
  obtain ⟨wr, pr⟩ := env
  cases hw
  cases leftover <;> exact ⟨rfl, rfl⟩

theorem run_write_failure_spawns_nothing_witness :
    (Runner.run ⟨"/tmp/bundeck-plugins"⟩ 7 "x"
        ⟨WriteOutcome.fail "disk full" (some "x"),
          ProcOutcome.exited "" none⟩).err
      = some ("failed to write temp file: " ++ "disk full") ∧
    spawnsOf (Runner.run ⟨"/tmp/bundeck-plugins"⟩ 7 "x"
        ⟨WriteOutcome.fail "disk full" (some "x"),
          ProcOutcome.exited "" none⟩).trace = [] :=
  run_write_failure_spawns_nothing ⟨"/tmp/bundeck-plugins"⟩ 7 "x"
    "disk full" (some "x") _ rfl

/-- Claim C10: whenever `Run` returns an error — write failure, spawn
failure or non-zero exit — the output string returned alongside it is
exactly empty; captured output reaches the caller only inside the error
message. -/
theorem run_error_output_empty (r : Runner) (id : Int) (code e : String)
    (env : RunEnv) (h : (r.run id code env).err = some e) :
    (r.run id code env).out = "" := by
  obtain ⟨wr, pr⟩ := env
  cases wr with
  | fail msg leftover => rfl
  | ok =>
      cases hp : pr.procErr with
      | some perr => simp [Runner.run, hp]
      | none => simp [Runner.run, hp] at h

theorem run_error_output_empty_witness :
    (Runner.run ⟨"/tmp/bundeck-plugins"⟩ 7 "x"
        ⟨WriteOutcome.fail "disk full" (some "x"),
          ProcOutcome.exited "" none⟩).out = "" :=
  run_error_output_empty ⟨"/tmp/bundeck-plugins"⟩ 7 "x"
    ("failed to write temp file: " ++ "disk full") _ rfl

/-- Claim C4: from an idle card, activation turns the card Running
exactly when `run_continuously` is set and `interval_seconds > 0` (an
interval of 0 keeps the state unchanged even with the flag set); a
successful activation dispatches exactly one invocation immediately and
arms one repeating timer of period `interval_seconds * 1000`
milliseconds, each firing of which dispatches exactly one more
invocation. -/
theorem continuous_activation (p q : Plugin) (w : CtrlWorld)
    (hIdle : w.isRunning = false) (hRef : w.intervalRef = none)
    (hc : p.run_continuously = true) (hi : 0 < p.interval_seconds) :
    ((startContinuousRun q w).isRunning = true
        ↔ (q.run_continuously = true ∧ 0 < q.interval_seconds)) ∧
    startContinuousRun { p with interval_seconds := 0 } w = w ∧
    (startContinuousRun p w).isRunning = true ∧
    (startContinuousRun p w).invocations = w.invocations + 1 ∧
    (startContinuousRun p w).intervalRef = some w.nextTimerId ∧
    (startContinuousRun p w).timers
      = w.timers ++ [(w.nextTimerId, p.interval_seconds * 1000)] ∧
    timerFire w.nextTimerId (startContinuousRun p w)
      = { startContinuousRun p w with
          invocations := w.invocations + 2 } := by
  have hp := startContinuousRun_eq_of_idle p w hIdle hRef hc hi
  refine ⟨?_, ?_, ?_, ?_, ?_, ?_, ?_⟩
  · by_cases h1 : q.run_continuously = true
    · by_cases h2 : 0 < q.interval_seconds
      · rw [startContinuousRun_eq_of_idle q w hIdle hRef h1 h2]
        simp [h1, h2]
      · have hq : startContinuousRun q w = w := by
          unfold startContinuousRun
          rw [if_pos (Or.inr (Or.inr (by omega)))]
        rw [hq, hIdle]
        simp
        omega
    · have hq : startContinuousRun q w = w := by
        unfold startContinuousRun
        rw [if_pos (Or.inr (Or.inl (by simpa using h1)))]
      rw [hq, hIdle]
      simp [h1]
  · unfold startContinuousRun
    rw [if_pos (Or.inr (Or.inr (by simp)))]
  · rw [hp]
  · rw [hp]
  · rw [hp]
  · rw [hp]
  · rw [hp]
    simp [timerFire]

theorem continuous_activation_witness :
    ((startContinuousRun ⟨2, true, 0⟩
        ⟨false, none, [], 0, 0⟩).isRunning = true
      ↔ ((true : Bool) = true ∧ (0 : Int) < 0)) ∧
    startContinuousRun { Plugin.mk 1 true 5 with interval_seconds := 0 }
        ⟨false, none, [], 0, 0⟩ = ⟨false, none, [], 0, 0⟩ ∧
    (startContinuousRun ⟨1, true, 5⟩
        ⟨false, none, [], 0, 0⟩).isRunning = true ∧
    (startContinuousRun ⟨1, true, 5⟩
        ⟨false, none, [], 0, 0⟩).invocations = 0 + 1 ∧
    (startContinuousRun ⟨1, true, 5⟩
        ⟨false, none, [], 0, 0⟩).intervalRef = some 0 ∧
    (startContinuousRun ⟨1, true, 5⟩
        ⟨false, none, [], 0, 0⟩).timers = [] ++ [(0, 5 * 1000)] ∧
    timerFire 0 (startContinuousRun ⟨1, true, 5⟩ ⟨false, none, [], 0, 0⟩)
      = { startContinuousRun ⟨1, true, 5⟩ ⟨false, none, [], 0, 0⟩ with
          invocations := 0 + 2 } :=
  continuous_activation ⟨1, true, 5⟩ ⟨2, true, 0⟩ ⟨false, none, [], 0, 0⟩
    rfl rfl rfl (by decide)

/-- The auto-stop machinery does exist, but it is reachable only when
the mutation promise rejects — a network-level failure of the exchange,
not a Runner error: settling a rejected fetch while Running cancels the
timer and leaves the card Idle. -/
theorem network_failure_auto_stop (w : CtrlWorld) (m : String)
    (tid : Nat) (per : Int) (hRun : w.isRunning = true)
    (hRef : w.intervalRef = some tid) (hT : w.timers = [(tid, per)]) :
    (mutationSettle (FetchResult.rejected m) w).isRunning = false ∧
    (mutationSettle (FetchResult.rejected m) w).intervalRef = none ∧
    (mutationSettle (FetchResult.rejected m) w).timers = [] := by
  obtain ⟨ir, ref, tm, nid, inv⟩ := w
  cases hRun
  cases hRef
  cases hT
  simp [mutationSettle, onRunError, stopContinuousRun]

/-- Claim C5 (code bug, evaluated at the failing input): a Running card
with its armed timer, whose tick's Runner invocation fails (`bun` exits
non-zero printing `boom`) and whose HTTP exchange completes.  The
handler returns status 500, the bare `fetch` resolves, react-query runs
`onSuccess`, and the card state is unchanged — still Running, timer
still armed, so further ticks keep being issued.  The claimed
Running → Idle transition does not occur; the `onError` auto-stop in
the source shows the intent the spec describes, but a Runner error
never reaches it. -/
theorem tick_runner_error_keeps_timer_armed :
    (runPluginEndpoint (Runner.run ⟨"/tmp/bundeck-plugins"⟩ 3 "throw 1"
        ⟨WriteOutcome.ok,
          ProcOutcome.exited "boom\n" (some "exit status 1")⟩)).status
      = 500 ∧
    tickSettle (Runner.run ⟨"/tmp/bundeck-plugins"⟩ 3 "throw 1"
        ⟨WriteOutcome.ok,
          ProcOutcome.exited "boom\n" (some "exit status 1")⟩)
        ⟨true, some 3, [(3, 5000)], 4, 9⟩
      = ⟨true, some 3, [(3, 5000)], 4, 9⟩ ∧
    (tickSettle (Runner.run ⟨"/tmp/bundeck-plugins"⟩ 3 "throw 1"
        ⟨WriteOutcome.ok,
          ProcOutcome.exited "boom\n" (some "exit status 1")⟩)
        ⟨true, some 3, [(3, 5000)], 4, 9⟩).isRunning = true ∧
    (tickSettle (Runner.run ⟨"/tmp/bundeck-plugins"⟩ 3 "throw 1"
        ⟨WriteOutcome.ok,
          ProcOutcome.exited "boom\n" (some "exit status 1")⟩)
        ⟨true, some 3, [(3, 5000)], 4, 9⟩).timers = [(3, 5000)] := by
  exact ⟨rfl, rfl, rfl, rfl⟩

/-- Claim C6: starting continuous mode again while the card is already
Running is a no-op — after any number of further start requests the
state is unchanged, exactly one timer remains armed, and a firing of
that timer dispatches exactly one invocation. -/
theorem double_start_is_noop (p : Plugin) (w : CtrlWorld) (n : Nat)
    (tid : Nat) (per : Int) (hRun : w.isRunning = true)
    (hT : w.timers = [(tid, per)]) :
    startContinuousRun p w = w ∧
    Nat.iterate (startContinuousRun p) n w = w ∧
    (Nat.iterate (startContinuousRun p) n w).timers.length = 1 ∧
    timerFire tid w = { w with invocations := w.invocations + 1 } := by
  have h1 := startContinuousRun_of_running p w hRun
  refine ⟨h1, Function.iterate_fixed h1 n, ?_, ?_⟩
  · rw [Function.iterate_fixed h1 n, hT]
    rfl
  · simp [timerFire, hT]

theorem double_start_is_noop_witness :
    startContinuousRun ⟨1, true, 5⟩ ⟨true, some 0, [(0, 5000)], 1, 1⟩
      = ⟨true, some 0, [(0, 5000)], 1, 1⟩ ∧
    Nat.iterate (startContinuousRun ⟨1, true, 5⟩) 3
        ⟨true, some 0, [(0, 5000)], 1, 1⟩
      = ⟨true, some 0, [(0, 5000)], 1, 1⟩ ∧
    (Nat.iterate (startContinuousRun ⟨1, true, 5⟩) 3
        ⟨true, some 0, [(0, 5000)], 1, 1⟩).timers.length = 1 ∧
    timerFire 0 ⟨true, some 0, [(0, 5000)], 1, 1⟩
      = { (⟨true, some 0, [(0, 5000)], 1, 1⟩ : CtrlWorld) with
          invocations := 1 + 1 } :=
  double_start_is_noop ⟨1, true, 5⟩ ⟨true, some 0, [(0, 5000)], 1, 1⟩ 3
    0 5000 rfl rfl

/-- Claim C9: for a consistent Running card state, the unmount cleanup
cancels the armed timer (no timer outstanding, ref cleared, a firing
attempt of the old timer dispatches nothing), and entering edit mode
while Running does the same and leaves the card Idle. -/
theorem teardown_cancels_timers (w : CtrlWorld) (tid : Nat)
    (hcons : refConsistent w = true) (hRun : w.isRunning = true) :
    (unmountCleanup w).intervalRef = none ∧
    (unmountCleanup w).timers = [] ∧
    timerFire tid (unmountCleanup w) = unmountCleanup w ∧
    (editModeEffect true w).isRunning = false ∧
    (editModeEffect true w).intervalRef = none ∧
    (editModeEffect true w).timers = [] ∧
    timerFire tid (editModeEffect true w) = editModeEffect true w := by
  obtain ⟨ir, ref, tm, nid, inv⟩ := w
  cases hRun
  cases ref with
  | none =>
      have htm : tm = [] := by
        simpa [refConsistent, List.isEmpty_iff] using hcons
      cases htm
      simp [unmountCleanup, editModeEffect, stopContinuousRun, timerFire]
  | some t0 =>
      have hall : tm.all (fun t => t.1 == t0) = true := by
        simpa [refConsistent] using hcons
      have htm := filter_bne_nil_of_all_eq t0 tm hall
      simp [unmountCleanup, editModeEffect, stopContinuousRun, timerFire,
        htm]

theorem teardown_cancels_timers_witness :
    (unmountCleanup ⟨true, some 5, [(5, 3000)], 6, 2⟩).intervalRef
      = none ∧
    (unmountCleanup ⟨true, some 5, [(5, 3000)], 6, 2⟩).timers = [] ∧
    timerFire 5 (unmountCleanup ⟨true, some 5, [(5, 3000)], 6, 2⟩)
      = unmountCleanup ⟨true, some 5, [(5, 3000)], 6, 2⟩ ∧
    (editModeEffect true ⟨true, some 5, [(5, 3000)], 6, 2⟩).isRunning
      = false ∧
    (editModeEffect true ⟨true, some 5, [(5, 3000)], 6, 2⟩).intervalRef
      = none ∧
    (editModeEffect true ⟨true, some 5, [(5, 3000)], 6, 2⟩).timers
      = [] ∧
    timerFire 5 (editModeEffect true ⟨true, some 5, [(5, 3000)], 6, 2⟩)
      = editModeEffect true ⟨true, some 5, [(5, 3000)], 6, 2⟩ :=
  teardown_cancels_timers ⟨true, some 5, [(5, 3000)], 6, 2⟩ 5
    (by decide) rfl

end Bundeck
